import Mathlib

/-!
Shallow embedding of `src/multicam.c`, the v4l2 multi-camera capture module.

The module exposes a `Camera` object (initialised by `Camera_init`), a single-device
read (`camera_read`) and a batch read over a capture system (`camsys_read`).  Each
read runs one `cam_read_worker` per device on its own thread; a worker performs one
dequeue → convert → requeue → convert cycle writing into its assigned region of the
result buffer.

Modelling conventions:
* Pointers into the result buffer are modelled as byte offsets (`Nat`); the set of
  bytes a worker's final conversion addresses is a `Finset Nat` of offsets.
* The external collaborators (`v4l2_xioctl`, libyuv's `ConvertToARGB` / `ARGBToRAW`)
  are modelled by an environment recording the integer each call returns; the C code
  compares the ioctl results against `-1` and the libyuv results against `0`.
* C `int` dimensions are modelled as `Nat` (they are sizes), collaborator return
  values as `Int` (the code compares them with `-1`).
* Python exceptions are modelled as an error value carrying the formatted message.
-/

namespace Multicam

/-- Fields of `CameraObject` used by the capture core: image width and height and the
packed pixel-format tag (`fourcc`). -/
structure Camera where
  width : Nat
  height : Nat
  fourcc : Nat
  deriving DecidableEq, Repr

/-- Return values of the four external collaborator calls made during one worker
cycle, in the order the cycle performs them: `v4l2_xioctl(fd, VIDIOC_DQBUF, ..)`,
`ConvertToARGB(..)`, `v4l2_xioctl(fd, VIDIOC_QBUF, ..)`, `ARGBToRAW(..)`. -/
structure WorkerEnv where
  dqbuf_res : Int
  convertToARGB_res : Int
  qbuf_res : Int
  argbToRAW_res : Int
  deriving DecidableEq, Repr

/-- One observable collaborator call of a worker cycle.  `dqbuf` is the blocking
dequeue of a raw buffer, `qbuf` the requeue; each conversion call is tagged with the
byte size of the destination it writes (`convertToARGB` writes the stack scratch
buffer, `argbToRAW` writes the worker's destination region). -/
inductive WAction where
  | dqbuf
  | convertToARGB (dstBytes : Nat)
  | qbuf
  | argbToRAW (dstBytes : Nat)
  deriving DecidableEq, Repr

/-- Observable outcome of one `cam_read_worker` cycle: the status stored into
`args->res`, the sequence of collaborator calls attempted, the size of the stack
scratch array `uint8_t argb[cam->height * cam->width * 4]` (line 99), and the set of
result-buffer byte offsets addressed by the final `ARGBToRAW` call. -/
structure WorkerRun where
  res : Nat
  actions : List WAction
  scratchBytes : Nat
  dstWrites : Finset Nat
  deriving DecidableEq

/-- Shallow embedding of `cam_read_worker` (multicam.c lines 91–145).  `dst` is the
byte offset of this worker's destination inside the result buffer (the C code passes
the pointer `&dst[i * cam_dst_sz]`).  Each `if` mirrors one early-return error path
of the C function; the outcome codes 1–4 are the values assigned to `args->res`. -/
def cam_read_worker (cam : Camera) (dst : Nat) (env : WorkerEnv) : WorkerRun :=
  -- uint8_t argb[cam->height * cam->width * 4];
  let scratch := cam.height * cam.width * 4
  -- if (-1 == v4l2_xioctl(cam->fd, VIDIOC_DQBUF, &buf)) { args->res = 1; return NULL; }
  if env.dqbuf_res = -1 then
    { res := 1, actions := [.dqbuf], scratchBytes := scratch, dstWrites := ∅ }
  -- libyuv_res = ConvertToARGB(sample, size, argb, cam->width*4, .., cam->width, cam->height, ..);
  -- if (libyuv_res != 0) { args->res = 2; return NULL; }   (no requeue on this path)
  else if env.convertToARGB_res ≠ 0 then
    { res := 2, actions := [.dqbuf, .convertToARGB scratch],
      scratchBytes := scratch, dstWrites := ∅ }
  -- if (-1 == v4l2_xioctl(cam->fd, VIDIOC_QBUF, &buf)) { args->res = 3; return NULL; }
  else if env.qbuf_res = -1 then
    { res := 3, actions := [.dqbuf, .convertToARGB scratch, .qbuf],
      scratchBytes := scratch, dstWrites := ∅ }
  -- libyuv_res = ARGBToRAW(argb, cam->width*4, dst, cam->width*3, cam->width, cam->height);
  -- writes cam->height rows of cam->width*3 bytes starting at dst
  else if env.argbToRAW_res ≠ 0 then
    { res := 4,
      actions := [.dqbuf, .convertToARGB scratch, .qbuf,
                  .argbToRAW (cam.height * (cam.width * 3))],
      scratchBytes := scratch,
      dstWrites := Finset.Ico dst (dst + cam.height * (cam.width * 3)) }
  else
    { res := 0,
      actions := [.dqbuf, .convertToARGB scratch, .qbuf,
                  .argbToRAW (cam.height * (cam.width * 3))],
      scratchBytes := scratch,
      dstWrites := Finset.Ico dst (dst + cam.height * (cam.width * 3)) }

/-- Element type of the returned NumPy arrays; the code always uses `NPY_UINT8`. -/
inductive DType where
  | uint8
  deriving DecidableEq, Repr

/-- A NumPy array as the caller receives it: its dimensions, element type, and
whether it owns its data buffer (`NPY_ARRAY_OWNDATA` in `camera_read`; arrays from
`PyArray_SimpleNew` in `camsys_read` own their allocation). -/
structure Tensor where
  dims : List Nat
  dtype : DType
  ownsData : Bool
  deriving DecidableEq, Repr

/-- A raised Python exception, carrying the formatted message. -/
inductive PyError where
  | valueError (msg : String)
  | runtimeError (msg : String)
  deriving DecidableEq, Repr

/-- Embedding of `camera_read` (lines 147–174): allocate a `width*height*3` buffer,
run one worker on a dedicated thread at offset 0 of that buffer, join it, turn a
nonzero `res` into a RuntimeError whose message embeds the numeric code, otherwise
return the `[height, width, 3]` uint8 array owning its data. -/
def camera_read (cam : Camera) (env : WorkerEnv) : Except PyError Tensor :=
  -- if (cam_args.res) { PyErr_Format(PyExc_RuntimeError, "Reading image failed: %i\n", ..); }
  if (cam_read_worker cam 0 env).res ≠ 0 then
    .error (.runtimeError ("Reading image failed: " ++
      toString (cam_read_worker cam 0 env).res ++ "\n"))
  else
    -- npy_intp dims[3] = {self->height, self->width, 3};  NPY_UINT8, NPY_ARRAY_OWNDATA
    .ok { dims := [cam.height, cam.width, 3], dtype := .uint8, ownsData := true }

/-- The batch capture-system object consumed by `camsys_read`: its ordered camera
sequence and its common `width` and `height` attributes. -/
structure CamSys where
  cameras : List Camera
  width : Nat
  height : Nat
  deriving DecidableEq, Repr

/-- `int cam_dst_sz = width * height * 3;` (line 200) — the per-device slice size,
computed from the capture system's common dimensions. -/
def cam_dst_sz (sys : CamSys) : Nat := sys.width * sys.height * 3

/-- Byte offset of device `i`'s destination slice: the worker receives the pointer
`&dst[i * cam_dst_sz]` (line 215). -/
def slice_offset (sys : CamSys) (i : Nat) : Nat := i * cam_dst_sz sys

/-- Device `i`'s destination slice of the result buffer: `cam_dst_sz` bytes starting
at its offset. -/
def slice (sys : CamSys) (i : Nat) : Finset Nat :=
  Finset.Ico (slice_offset sys i) (slice_offset sys i + cam_dst_sz sys)

/-- The runs of the batch's N workers in device order: worker `i` reads
`cameras[i]` into offset `i * cam_dst_sz` (thread-argument setup at lines 212–217,
spawn and join loops at lines 219–222). -/
def camsys_runs (sys : CamSys) (envs : Nat → WorkerEnv) : List WorkerRun :=
  sys.cameras.enum.map (fun p => cam_read_worker p.2 (slice_offset sys p.1) (envs p.1))

/-- The per-device outcome codes the orchestrator scans after the join barrier. -/
def camsys_outcomes (sys : CamSys) (envs : Nat → WorkerEnv) : List Nat :=
  (camsys_runs sys envs).map WorkerRun.res

/-- The error-scan loop of lines 223–228: return the index of the first device whose
`cam_args[i].res` is nonzero, with that code, scanning in device order. -/
def firstFailure : List Nat → Option (Nat × Nat)
  | [] => none
  | r :: rest =>
      if r ≠ 0 then some (0, r)
      else (firstFailure rest).map (fun p => (p.1 + 1, p.2))

/-- Embedding of `camsys_read` (lines 176–239): an empty camera sequence is rejected
with a ValueError before anything else happens; otherwise the `[N, height, width, 3]`
uint8 array is allocated, one worker per camera is spawned and joined, the outcomes
are scanned in device order and the first nonzero one raises a RuntimeError naming
the device index and its code; if all succeed the array is returned. -/
def camsys_read (sys : CamSys) (envs : Nat → WorkerEnv) : Except PyError Tensor :=
  -- int N = (int) PySequence_Length(cams);
  -- if (N <= 0) { PyErr_SetString(PyExc_ValueError, "camsys contains no cameras."); }
  if sys.cameras.length = 0 then .error (.valueError "camsys contains no cameras.")
  else
    match firstFailure (camsys_outcomes sys envs) with
    | some p =>
        -- PyErr_Format(PyExc_RuntimeError, "Reading image from camera %i failed: %i\n", i, res)
        .error (.runtimeError ("Reading image from camera " ++ toString p.1 ++
          " failed: " ++ toString p.2 ++ "\n"))
    | none =>
        -- npy_intp dims[4] = {N, height, width, 3};  PyArray_SimpleNew(4, dims, NPY_UINT8)
        .ok { dims := [sys.cameras.length, sys.height, sys.width, 3], dtype := .uint8,
              ownsData := true }

/-- Orchestrator-level events of one batch call, in program order: thread creation
(`pthread_create`, line 220), thread join (`pthread_join`, line 222), raising a
Python error, and returning the result array. -/
inductive Event where
  | spawn (i : Nat)
  | join (i : Nat)
  | raiseErr (e : PyError)
  | returnArr (t : Tensor)
  deriving DecidableEq, Repr

/-- The event trace of one `camsys_read` call: the empty-sequence check precedes any
spawn; otherwise all N spawns (loop at 219–220), then all N joins (loop at 221–222),
then exactly one terminal event — the first-failure error or the array return. -/
def camsys_read_trace (sys : CamSys) (envs : Nat → WorkerEnv) : List Event :=
  if sys.cameras.length = 0 then [.raiseErr (.valueError "camsys contains no cameras.")]
  else
    (List.range sys.cameras.length).map .spawn ++
      (List.range sys.cameras.length).map .join ++
      [match firstFailure (camsys_outcomes sys envs) with
       | some p =>
           .raiseErr (.runtimeError ("Reading image from camera " ++ toString p.1 ++
             " failed: " ++ toString p.2 ++ "\n"))
       | none =>
           .returnArr { dims := [sys.cameras.length, sys.height, sys.width, 3],
                        dtype := .uint8, ownsData := true }]

/-- All device-pool and conversion calls performed during one batch call, tagged with
the device index that performs them.  When the empty-sequence check fails the call,
no worker runs and no device is touched. -/
def camsys_device_actions (sys : CamSys) (envs : Nat → WorkerEnv) : List (Nat × WAction) :=
  if sys.cameras.length = 0 then []
  else
    (sys.cameras.enum.map (fun p =>
      ((cam_read_worker p.2 (slice_offset sys p.1) (envs p.1)).actions.map
        (fun a => (p.1, a))))).flatten

/-- C `toupper` on a byte value (characters are modelled as their byte values). -/
def toupper (c : Nat) : Nat := if 97 ≤ c ∧ c ≤ 122 then c - 32 else c

/-- The `FOURCC(a,b,c,d)` packing macro: `a | (b << 8) | (c << 16) | (d << 24)` —
byte 0 is the first character, byte 3 the last. -/
def FOURCC (a b c d : Nat) : Nat := a ||| (b <<< 8) ||| (c <<< 16) ||| (d <<< 24)

/-- `STR2FOURCC(s) = FOURCC(toupper(s[0]), toupper(s[1]), toupper(s[2]), toupper(s[3]))`
(line 12).  `Camera_init` only applies it after checking `strlen(s) == 4`; the
catch-all branch is never reached from there. -/
def STR2FOURCC : List Nat → Nat
  | a :: b :: c :: d :: _ => FOURCC (toupper a) (toupper b) (toupper c) (toupper d)
  | _ => 0

/-- The format handling of `Camera_init` (lines 27–36): a missing format yields
fourcc 0; a present format whose length is not 4 raises a ValueError and aborts the
initialiser — before any device interaction, since `Camera_init` performs no device
I/O at all (it only stores fields and leaves `fd = -1`); a 4-character code is
packed with `STR2FOURCC`. -/
def Camera_init_fourcc (format : Option String) : Except PyError Nat :=
  match format with
  | none => .ok 0
  | some s =>
      if s.length ≠ 4 then
        .error (.valueError ("`" ++ s ++ "` is not a valid FOURCC"))
      else
        .ok (STR2FOURCC (s.data.map Char.toNat))

/-- Byte `k` of a packed 4-byte tag — the decoding direction of the format-code
round trip. -/
def fourccByte (tag k : Nat) : Nat := (tag >>> (8 * k)) % 256

/-- The four stages of one capture cycle in the order the worker performs them,
each conversion tagged with the byte size of its destination: the scratch buffer is
`height*width*4` bytes, the destination region `height*(width*3)` bytes. -/
def fullCycle (cam : Camera) : List WAction :=
  [.dqbuf, .convertToARGB (cam.height * cam.width * 4), .qbuf,
   .argbToRAW (cam.height * (cam.width * 3))]

/-- Which stage of the cycle fails first, as decided by the collaborator results the
C code branches on: stage 0 = dequeue, 1 = first conversion, 2 = requeue, 3 = second
conversion; `none` when every stage succeeds. -/
def firstFailingStage (env : WorkerEnv) : Option Nat :=
  if env.dqbuf_res = -1 then some 0
  else if env.convertToARGB_res ≠ 0 then some 1
  else if env.qbuf_res = -1 then some 2
  else if env.argbToRAW_res ≠ 0 then some 3
  else none

/-! Supporting lemmas about the embedding. -/

/-- Whatever the collaborator results, the final conversion of a worker only ever
addresses bytes of the region of `cam.height * (cam.width * 3)` bytes starting at
its destination offset. -/
theorem worker_dstWrites_subset (cam : Camera) (dst : Nat) (env : WorkerEnv) :
    (cam_read_worker cam dst env).dstWrites ⊆
      Finset.Ico dst (dst + cam.height * (cam.width * 3)) := by
  unfold cam_read_worker
  split_ifs <;> simp

/-- The worker's scratch buffer always has size `height * width * 4`, computed from
the camera's own fields. -/
theorem worker_scratchBytes (cam : Camera) (dst : Nat) (env : WorkerEnv) :
    (cam_read_worker cam dst env).scratchBytes = cam.height * cam.width * 4 := by
  unfold cam_read_worker
  split_ifs <;> rfl

/-- The error scan finds nothing exactly when every outcome is the success code 0. -/
theorem firstFailure_eq_none_iff (l : List Nat) :
    firstFailure l = none ↔ ∀ r ∈ l, r = 0 := by
  induction l with
  | nil => simp [firstFailure]
  | cons r rest ih =>
      by_cases hr : r = 0
      · simp [firstFailure, hr, ih]
      · simp [firstFailure, hr]

/-- Characterisation of a successful error scan: the returned index holds the
returned nonzero code and every earlier device succeeded. -/
theorem firstFailure_eq_some (l : List Nat) (i c : Nat)
    (h : firstFailure l = some (i, c)) :
    l[i]? = some c ∧ c ≠ 0 ∧ ∀ j, j < i → l[j]? = some 0 := by
  induction l generalizing i with
  | nil => simp [firstFailure] at h
  | cons r rest ih =>
      rw [firstFailure] at h
      by_cases hr : r = 0
      · rw [if_neg (by simp [hr])] at h
        rcases Option.map_eq_some'.mp h with ⟨⟨i', c'⟩, hrest, hpair⟩
        simp only [Prod.mk.injEq] at hpair
        obtain ⟨hi, hc⟩ := hpair
        subst hi; subst hc
        obtain ⟨h1, h2, h3⟩ := ih i' hrest
        refine ⟨by simpa using h1, h2, ?_⟩
        intro j hj
        cases j with
        | zero => simp [hr]
        | succ j' => simpa using h3 j' (by omega)
      · rw [if_pos hr] at h
        simp only [Option.some.injEq, Prod.mk.injEq] at h
        obtain ⟨hi, hc⟩ := h
        subst hi
        exact ⟨by simp [hc], by simpa [← hc] using hr, by intro j hj; omega⟩

/-- The batch produces one worker run, hence one outcome, per camera. -/
theorem camsys_outcomes_length (sys : CamSys) (envs : Nat → WorkerEnv) :
    (camsys_outcomes sys envs).length = sys.cameras.length := by
  simp [camsys_outcomes, camsys_runs]

/-- Indexing the batch's worker runs: run `i` is the worker for `cameras[i]` at
destination offset `i * cam_dst_sz`. -/
theorem camsys_runs_getElem (sys : CamSys) (envs : Nat → WorkerEnv) (i : Nat) :
    (camsys_runs sys envs)[i]? =
      (sys.cameras[i]?).map (fun cam => cam_read_worker cam (slice_offset sys i) (envs i)) := by
  unfold camsys_runs
  rw [List.getElem?_map, List.getElem?_enum]
  cases sys.cameras[i]? <;> simp

/-- Destination slices of distinct devices are disjoint byte ranges. -/
theorem slice_disjoint (sys : CamSys) {i j : Nat} (hij : i ≠ j) :
    Disjoint (slice sys i) (slice sys j) := by
  have key : ∀ a b : Nat, a < b → Disjoint (slice sys a) (slice sys b) := by
    intro a b hlt
    rw [Finset.disjoint_left]
    intro x hxa hxb
    rw [slice, Finset.mem_Ico] at hxa hxb
    have h1 : slice_offset sys a + cam_dst_sz sys ≤ slice_offset sys b := by
      have := Nat.mul_le_mul_right (cam_dst_sz sys) (Nat.succ_le_of_lt hlt)
      rw [Nat.succ_mul] at this
      exact this
    exact absurd ((hxa.2.trans_le h1).trans_le hxb.1) (lt_irrefl x)
  rcases Nat.lt_or_ge i j with hlt | hge
  · exact key i j hlt
  · exact (key j i (by omega)).symm

/-- Packing a value below `2 ^ n` with a left-shifted value is plain addition. -/
theorem lor_shiftLeft_eq_add {a : Nat} (b n : Nat) (h : a < 2 ^ n) :
    a ||| (b <<< n) = 2 ^ n * b + a := by
  apply Nat.eq_of_testBit_eq
  intro j
  rw [Nat.testBit_mul_pow_two_add b h j, Nat.testBit_lor, Nat.testBit_shiftLeft]
  by_cases hj : j < n
  · simp [hj, Nat.not_le.mpr hj]
  · have ha : a.testBit j = false :=
      Nat.testBit_lt_two_pow
        (lt_of_lt_of_le h (Nat.pow_le_pow_right (by norm_num) (Nat.le_of_not_lt hj)))
    simp [hj, Nat.le_of_not_lt hj, ha]

/-- On byte values the `FOURCC` macro packs its arguments base-256, little-endian. -/
theorem FOURCC_eq_of_lt {a b c d : Nat}
    (ha : a < 256) (hb : b < 256) (hc : c < 256) (hd : d < 256) :
    FOURCC a b c d = a + 256 * b + 65536 * c + 16777216 * d := by
  have p8 : (2 : Nat) ^ 8 = 256 := by norm_num
  have p16 : (2 : Nat) ^ 16 = 65536 := by norm_num
  have p24 : (2 : Nat) ^ 24 = 16777216 := by norm_num
  have h1 : a ||| (b <<< 8) = 2 ^ 8 * b + a :=
    lor_shiftLeft_eq_add b 8 (by rw [p8]; exact ha)
  have e1 : 2 ^ 8 * b + a < 2 ^ 16 := by rw [p8, p16]; omega
  have h2 : (2 ^ 8 * b + a) ||| (c <<< 16) = 2 ^ 16 * c + (2 ^ 8 * b + a) :=
    lor_shiftLeft_eq_add c 16 e1
  have e2 : 2 ^ 16 * c + (2 ^ 8 * b + a) < 2 ^ 24 := by rw [p8, p16, p24]; omega
  have h3 : (2 ^ 16 * c + (2 ^ 8 * b + a)) ||| (d <<< 24) =
      2 ^ 24 * d + (2 ^ 16 * c + (2 ^ 8 * b + a)) :=
    lor_shiftLeft_eq_add d 24 e2
  unfold FOURCC
  rw [h1, h2, h3, p8, p16, p24]
  omega

/-- Byte extraction undoes base-256 packing of byte values. -/
theorem fourccByte_pack {a b c d : Nat}
    (ha : a < 256) (hb : b < 256) (hc : c < 256) (hd : d < 256) :
    fourccByte (a + 256 * b + 65536 * c + 16777216 * d) 0 = a ∧
    fourccByte (a + 256 * b + 65536 * c + 16777216 * d) 1 = b ∧
    fourccByte (a + 256 * b + 65536 * c + 16777216 * d) 2 = c ∧
    fourccByte (a + 256 * b + 65536 * c + 16777216 * d) 3 = d := by
  refine ⟨?_, ?_, ?_, ?_⟩ <;>
    · simp only [fourccByte, Nat.shiftRight_eq_div_pow]
      norm_num
      omega

/-- The C `toupper` maps byte values to byte values. -/
theorem toupper_lt_256 {c : Nat} (h : c < 256) : toupper c < 256 := by
  unfold toupper
  split_ifs <;> omega


/-! Claim theorems. -/

/-- C8: `Camera_init` rejects a pixel-format code whose length is not 4 with a
ValueError before any device interaction (the initialiser performs no device I/O);
a 4-character code is accepted, each character uppercased, and the four byte values
packed into the tag in a fixed byte order — byte k of the tag is the uppercased
k-th character. -/
theorem C8_format_code :
    (∀ s : String, s.length ≠ 4 →
      Camera_init_fourcc (some s) =
        .error (.valueError ("`" ++ s ++ "` is not a valid FOURCC"))) ∧
    (∀ (s : String) (a b c d : Char), s.data = [a, b, c, d] →
      Camera_init_fourcc (some s) =
        .ok (FOURCC (toupper a.toNat) (toupper b.toNat)
          (toupper c.toNat) (toupper d.toNat))) ∧
    (∀ a b c d : Nat, a < 256 → b < 256 → c < 256 → d < 256 →
      fourccByte (FOURCC (toupper a) (toupper b) (toupper c) (toupper d)) 0 = toupper a ∧
      fourccByte (FOURCC (toupper a) (toupper b) (toupper c) (toupper d)) 1 = toupper b ∧
      fourccByte (FOURCC (toupper a) (toupper b) (toupper c) (toupper d)) 2 = toupper c ∧
      fourccByte (FOURCC (toupper a) (toupper b) (toupper c) (toupper d)) 3 = toupper d) := by
  refine ⟨?_, ?_, ?_⟩
  · intro s hs
    simp only [Camera_init_fourcc]
    rw [if_pos hs]
  · intro s a b c d hdata
    have hlen : s.length = 4 := by simp [String.length, hdata]
    simp only [Camera_init_fourcc]
    rw [if_neg (by simp [hlen]), hdata]
    rfl
  · intro a b c d ha hb hc hd
    have ta := toupper_lt_256 ha
    have tb := toupper_lt_256 hb
    have tc := toupper_lt_256 hc
    have td := toupper_lt_256 hd
    rw [FOURCC_eq_of_lt ta tb tc td]
    exact fourccByte_pack ta tb tc td

/-- C8 witness: a 3-character code is rejected; "rgb3" is accepted, uppercased and
packed; decoding byte 0 of the packed tag gives back the uppercased first
character. -/
theorem C8_format_code_witness :
    Camera_init_fourcc (some "RGB") =
      .error (.valueError "`RGB` is not a valid FOURCC") ∧
    Camera_init_fourcc (some "rgb3") =
      .ok (FOURCC (toupper 114) (toupper 103) (toupper 98) (toupper 51)) ∧
    fourccByte (FOURCC (toupper 114) (toupper 103) (toupper 98) (toupper 51)) 0 =
      toupper 114 :=
  ⟨C8_format_code.1 "RGB" (by decide),
   C8_format_code.2.1 "rgb3" 'r' 'g' 'b' '3' rfl,
   (C8_format_code.2.2 114 103 98 51 (by omega) (by omega) (by omega) (by omega)).1⟩

/-- C6: every worker cycle attempts its stages in the order dequeue, conversion into
the private scratch buffer of width*height*4 bytes, requeue, conversion into the
width*height*3-byte destination region; it aborts at the first failing stage without
retrying (its call sequence is the prefix of the cycle ending at that stage) and
returns the distinct code s+1 when stage s is the first to fail, or 0 when no stage
fails. -/
theorem C6_worker_cycle (cam : Camera) (dst : Nat) (env : WorkerEnv) :
    (fullCycle cam)[1]? = some (.convertToARGB (cam.width * cam.height * 4)) ∧
    (fullCycle cam)[3]? = some (.argbToRAW (cam.width * cam.height * 3)) ∧
    (match firstFailingStage env with
     | none => (cam_read_worker cam dst env).res = 0 ∧
         (cam_read_worker cam dst env).actions = fullCycle cam
     | some s => (cam_read_worker cam dst env).res = s + 1 ∧
         (cam_read_worker cam dst env).actions = (fullCycle cam).take (s + 1)) := by
  refine ⟨?_, ?_, ?_⟩
  · simp [fullCycle, Nat.mul_comm]
  · simp only [fullCycle]
    rw [show cam.height * (cam.width * 3) = cam.width * cam.height * 3 by ring]
    rfl
  · unfold cam_read_worker firstFailingStage
    split_ifs <;> simp [fullCycle]

/-- C2: the code violates the requeue-on-every-exit-path requirement.  At the
concrete cycle where the dequeue succeeds and the first conversion stage fails, the
worker returns outcome 2 having attempted dequeue and conversion but never the
requeue of the dequeued raw buffer. -/
theorem C2_requeue_skipped_on_conversion_failure :
    (cam_read_worker ⟨640, 480, 0⟩ 0 ⟨0, 1, 0, 0⟩).res = 2 ∧
    (cam_read_worker ⟨640, 480, 0⟩ 0 ⟨0, 1, 0, 0⟩).actions =
      [.dqbuf, .convertToARGB (480 * 640 * 4)] ∧
    WAction.qbuf ∉ (cam_read_worker ⟨640, 480, 0⟩ 0 ⟨0, 1, 0, 0⟩).actions := by
  refine ⟨rfl, rfl, ?_⟩
  decide

/-- C9: the worker outcome is one of exactly five codes with the fixed numeric
mapping — 0 success, 1 dequeue failure, 2 first-conversion failure, 3 requeue
failure, 4 second-conversion failure — and the nonzero code is embedded verbatim in
the RuntimeError message of both the single-device read and the batch read. -/
theorem C9_outcome_codes :
    (∀ (cam : Camera) (dst : Nat) (env : WorkerEnv),
      (cam_read_worker cam dst env).res ≤ 4) ∧
    (∀ (cam : Camera) (dst : Nat) (env : WorkerEnv),
      ((cam_read_worker cam dst env).res = 1 ↔ env.dqbuf_res = -1)) ∧
    (∀ (cam : Camera) (dst : Nat) (env : WorkerEnv),
      ((cam_read_worker cam dst env).res = 2 ↔
        env.dqbuf_res ≠ -1 ∧ env.convertToARGB_res ≠ 0)) ∧
    (∀ (cam : Camera) (dst : Nat) (env : WorkerEnv),
      ((cam_read_worker cam dst env).res = 3 ↔
        env.dqbuf_res ≠ -1 ∧ env.convertToARGB_res = 0 ∧ env.qbuf_res = -1)) ∧
    (∀ (cam : Camera) (dst : Nat) (env : WorkerEnv),
      ((cam_read_worker cam dst env).res = 4 ↔
        env.dqbuf_res ≠ -1 ∧ env.convertToARGB_res = 0 ∧ env.qbuf_res ≠ -1 ∧
          env.argbToRAW_res ≠ 0)) ∧
    (∀ (cam : Camera) (dst : Nat) (env : WorkerEnv),
      ((cam_read_worker cam dst env).res = 0 ↔
        env.dqbuf_res ≠ -1 ∧ env.convertToARGB_res = 0 ∧ env.qbuf_res ≠ -1 ∧
          env.argbToRAW_res = 0)) ∧
    (∀ (cam : Camera) (env : WorkerEnv), (cam_read_worker cam 0 env).res ≠ 0 →
      camera_read cam env =
        .error (.runtimeError ("Reading image failed: " ++
          toString (cam_read_worker cam 0 env).res ++ "
"))) ∧
    (∀ (sys : CamSys) (envs : Nat → WorkerEnv) (i c : Nat),
      firstFailure (camsys_outcomes sys envs) = some (i, c) →
      camsys_read sys envs =
        .error (.runtimeError ("Reading image from camera " ++ toString i ++
          " failed: " ++ toString c ++ "
"))) := by
  refine ⟨?_, ?_, ?_, ?_, ?_, ?_, ?_, ?_⟩
  · intro cam dst env; unfold cam_read_worker; split_ifs <;> simp
  · intro cam dst env; unfold cam_read_worker; split_ifs <;> simp_all
  · intro cam dst env; unfold cam_read_worker; split_ifs <;> simp_all
  · intro cam dst env; unfold cam_read_worker; split_ifs <;> simp_all
  · intro cam dst env; unfold cam_read_worker; split_ifs <;> simp_all
  · intro cam dst env; unfold cam_read_worker; split_ifs <;> simp_all
  · intro cam env h
    unfold camera_read
    rw [if_pos h]
  · intro sys envs i c h
    obtain ⟨hi, hc0, _⟩ := firstFailure_eq_some _ _ _ h
    have hN : sys.cameras.length ≠ 0 := by
      rcases List.getElem?_eq_some.mp hi with ⟨hlt, _⟩
      rw [camsys_outcomes_length] at hlt
      omega
    unfold camsys_read
    rw [if_neg hN, h]

/-- C9 witness: a dequeue failure yields code 1, and both read paths surface that
code inside their error messages at a concrete camera and batch. -/
theorem C9_outcome_codes_witness :
    (cam_read_worker ⟨2, 2, 0⟩ 0 ⟨-1, 0, 0, 0⟩).res = 1 ∧
    camera_read ⟨2, 2, 0⟩ ⟨-1, 0, 0, 0⟩ =
      .error (.runtimeError ("Reading image failed: " ++
        toString (cam_read_worker ⟨2, 2, 0⟩ 0 ⟨-1, 0, 0, 0⟩).res ++ "
")) ∧
    camsys_read ⟨[⟨2, 2, 0⟩], 2, 2⟩ (fun _ => ⟨-1, 0, 0, 0⟩) =
      .error (.runtimeError ("Reading image from camera " ++ toString 0 ++
        " failed: " ++ toString 1 ++ "
")) :=
  ⟨(C9_outcome_codes.2.1 ⟨2, 2, 0⟩ 0 ⟨-1, 0, 0, 0⟩).mpr (by decide),
   C9_outcome_codes.2.2.2.2.2.2.1 ⟨2, 2, 0⟩ ⟨-1, 0, 0, 0⟩ (by decide),
   C9_outcome_codes.2.2.2.2.2.2.2 ⟨[⟨2, 2, 0⟩], 2, 2⟩ (fun _ => ⟨-1, 0, 0, 0⟩) 0 1
     (by decide)⟩


/-- C4: a batch read over an empty device sequence fails with the configuration
error (a ValueError), its trace contains no thread spawn, and no device-pool or
conversion call is ever made. -/
theorem C4_empty_batch (sys : CamSys) (envs : Nat → WorkerEnv)
    (h : sys.cameras = []) :
    camsys_read sys envs = .error (.valueError "camsys contains no cameras.") ∧
    (∀ i, Event.spawn i ∉ camsys_read_trace sys envs) ∧
    camsys_device_actions sys envs = [] := by
  have h0 : sys.cameras.length = 0 := by rw [h]; rfl
  refine ⟨?_, ?_, ?_⟩
  · unfold camsys_read
    rw [if_pos h0]
  · intro i
    unfold camsys_read_trace
    rw [if_pos h0]
    simp
  · unfold camsys_device_actions
    rw [if_pos h0]

/-- C4 witness: the empty capture system at common size 2×2. -/
theorem C4_empty_batch_witness :
    camsys_read ⟨[], 2, 2⟩ (fun _ => ⟨0, 0, 0, 0⟩) =
      .error (.valueError "camsys contains no cameras.") ∧
    (∀ i, Event.spawn i ∉ camsys_read_trace ⟨[], 2, 2⟩ (fun _ => ⟨0, 0, 0, 0⟩)) ∧
    camsys_device_actions ⟨[], 2, 2⟩ (fun _ => ⟨0, 0, 0, 0⟩) = [] :=
  C4_empty_batch ⟨[], 2, 2⟩ (fun _ => ⟨0, 0, 0, 0⟩) rfl

/-- C5: for N ≥ 1 devices sharing the capture system's width and height, a batch
read in which every worker reports success returns the four-dimensional uint8 array
of shape [N, height, width, 3], owning its data, to the caller. -/
theorem C5_all_success (sys : CamSys) (envs : Nat → WorkerEnv)
    (hN : 1 ≤ sys.cameras.length)
    (hdims : ∀ cam ∈ sys.cameras, cam.width = sys.width ∧ cam.height = sys.height)
    (hok : ∀ r ∈ camsys_outcomes sys envs, r = 0) :
    camsys_read sys envs =
      .ok { dims := [sys.cameras.length, sys.height, sys.width, 3], dtype := .uint8,
            ownsData := true } := by
  have h0 : ¬ sys.cameras.length = 0 := by omega
  unfold camsys_read
  rw [if_neg h0, (firstFailure_eq_none_iff _).mpr hok]

/-- C5 witness: two 2×2 cameras, all collaborator calls succeeding, yield the
[2, 2, 2, 3] uint8 array. -/
theorem C5_all_success_witness :
    camsys_read ⟨[⟨2, 2, 0⟩, ⟨2, 2, 0⟩], 2, 2⟩ (fun _ => ⟨0, 0, 0, 0⟩) =
      .ok { dims := [2, 2, 2, 3], dtype := .uint8, ownsData := true } :=
  C5_all_success ⟨[⟨2, 2, 0⟩, ⟨2, 2, 0⟩], 2, 2⟩ (fun _ => ⟨0, 0, 0, 0⟩)
    (by decide) (by decide) (by decide)

/-- C3: whenever some worker of a batch reports a nonzero outcome, the call fails
with the RuntimeError naming the first failing device index (in device order) and
its outcome code, every earlier device having succeeded, and no tensor is returned
to the caller — the work of devices that succeeded is discarded. -/
theorem C3_first_failure_policy (sys : CamSys) (envs : Nat → WorkerEnv)
    (hfail : ∃ (j cj : Nat), (camsys_outcomes sys envs)[j]? = some cj ∧ cj ≠ 0) :
    ∃ (i c : Nat),
      camsys_read sys envs =
        .error (.runtimeError ("Reading image from camera " ++ toString i ++
          " failed: " ++ toString c ++ "
")) ∧
      (camsys_outcomes sys envs)[i]? = some c ∧ c ≠ 0 ∧
      (∀ j, j < i → (camsys_outcomes sys envs)[j]? = some 0) ∧
      (∀ t : Tensor, camsys_read sys envs ≠ .ok t) := by
  obtain ⟨j, cj, hj, hcj⟩ := hfail
  have hne : firstFailure (camsys_outcomes sys envs) ≠ none := by
    intro hnone
    exact hcj ((firstFailure_eq_none_iff _).mp hnone cj (List.getElem?_mem hj))
  rcases hopt : firstFailure (camsys_outcomes sys envs) with _ | ⟨i, c⟩
  · exact absurd hopt hne
  obtain ⟨hi, hc0, hprev⟩ := firstFailure_eq_some _ _ _ hopt
  have hN : ¬ sys.cameras.length = 0 := by
    rcases List.getElem?_eq_some.mp hi with ⟨hlt, _⟩
    rw [camsys_outcomes_length] at hlt
    omega
  refine ⟨i, c, ?_, hi, hc0, hprev, ?_⟩
  · unfold camsys_read
    rw [if_neg hN, hopt]
  · intro t hcontra
    unfold camsys_read at hcontra
    rw [if_neg hN, hopt] at hcontra
    exact Except.noConfusion hcontra

/-- C3 witness: one camera whose dequeue fails gives a failing batch. -/
theorem C3_first_failure_policy_witness :
    ∃ (i c : Nat),
      camsys_read ⟨[⟨2, 2, 0⟩], 2, 2⟩ (fun _ => ⟨-1, 0, 0, 0⟩) =
        .error (.runtimeError ("Reading image from camera " ++ toString i ++
          " failed: " ++ toString c ++ "
")) ∧
      (camsys_outcomes ⟨[⟨2, 2, 0⟩], 2, 2⟩ (fun _ => ⟨-1, 0, 0, 0⟩))[i]? = some c ∧
      c ≠ 0 ∧
      (∀ j, j < i →
        (camsys_outcomes ⟨[⟨2, 2, 0⟩], 2, 2⟩ (fun _ => ⟨-1, 0, 0, 0⟩))[j]? = some 0) ∧
      (∀ t : Tensor,
        camsys_read ⟨[⟨2, 2, 0⟩], 2, 2⟩ (fun _ => ⟨-1, 0, 0, 0⟩) ≠ .ok t) :=
  C3_first_failure_policy ⟨[⟨2, 2, 0⟩], 2, 2⟩ (fun _ => ⟨-1, 0, 0, 0⟩)
    ⟨0, 1, by decide, by decide⟩

/-- C10: the batch sizes each slice from the capture system's common width and
height (offset i * (width*height*3)), while the worker sizes its scratch buffer and
its destination writes from the camera's own fields; when the camera's fields equal
the system's the writes stay inside the assigned slice, and there are configurations
with mismatched fields whose writes escape the slice. -/
theorem C10_slice_safety (sys : CamSys) (i : Nat) (cam : Camera) (env : WorkerEnv)
    (hcam : sys.cameras[i]? = some cam)
    (hw : cam.width = sys.width) (hh : cam.height = sys.height) :
    (cam_read_worker cam (slice_offset sys i) env).scratchBytes =
      cam.height * cam.width * 4 ∧
    (cam_read_worker cam (slice_offset sys i) env).dstWrites ⊆
      Finset.Ico (slice_offset sys i)
        (slice_offset sys i + cam.height * (cam.width * 3)) ∧
    slice_offset sys i = i * (sys.width * sys.height * 3) ∧
    (cam_read_worker cam (slice_offset sys i) env).dstWrites ⊆ slice sys i ∧
    ∃ (sys2 : CamSys) (cam2 : Camera) (env2 : WorkerEnv),
      cam2.width ≠ sys2.width ∧
      ¬ ((cam_read_worker cam2 (slice_offset sys2 0) env2).dstWrites ⊆
          slice sys2 0) := by
  refine ⟨worker_scratchBytes cam _ env, worker_dstWrites_subset cam _ env, rfl, ?_, ?_⟩
  · have hsz : cam.height * (cam.width * 3) = cam_dst_sz sys := by
      rw [hw, hh, cam_dst_sz]
      ring
    have := worker_dstWrites_subset cam (slice_offset sys i) env
    rw [hsz] at this
    exact this
  · exact ⟨⟨[⟨2, 1, 0⟩], 1, 1⟩, ⟨2, 1, 0⟩, ⟨0, 0, 0, 0⟩, by decide, by decide⟩

/-- C10 witness: a matched 2×2 camera at batch index 0 of a 2×2 system. -/
theorem C10_slice_safety_witness :
    (cam_read_worker ⟨2, 2, 0⟩ (slice_offset ⟨[⟨2, 2, 0⟩], 2, 2⟩ 0) ⟨0, 0, 0, 0⟩).dstWrites ⊆
      slice ⟨[⟨2, 2, 0⟩], 2, 2⟩ 0 ∧
    (cam_read_worker ⟨2, 2, 0⟩ (slice_offset ⟨[⟨2, 2, 0⟩], 2, 2⟩ 0) ⟨0, 0, 0, 0⟩).scratchBytes =
      2 * 2 * 4 :=
  ⟨(C10_slice_safety ⟨[⟨2, 2, 0⟩], 2, 2⟩ 0 ⟨2, 2, 0⟩ ⟨0, 0, 0, 0⟩
      (by decide) (by decide) (by decide)).2.2.2.1,
   (C10_slice_safety ⟨[⟨2, 2, 0⟩], 2, 2⟩ 0 ⟨2, 2, 0⟩ ⟨0, 0, 0, 0⟩
      (by decide) (by decide) (by decide)).1⟩

/-- C1: when the batch's devices share the system's width W and height H, device
i's destination slice starts at byte offset i*H*W*3, has length H*W*3 (it is the
range [i*H*W*3, (i+1)*H*W*3)), slices of distinct devices are disjoint, each
worker's destination writes stay inside its own slice, and hence no two workers
address the same result-buffer byte. -/
theorem C1_disjoint_slices (sys : CamSys) (envs : Nat → WorkerEnv) (i j : Nat)
    (runi runj : WorkerRun)
    (hi : (camsys_runs sys envs)[i]? = some runi)
    (hj : (camsys_runs sys envs)[j]? = some runj)
    (hij : i ≠ j)
    (hdims : ∀ cam ∈ sys.cameras, cam.width = sys.width ∧ cam.height = sys.height) :
    slice_offset sys i = i * (sys.height * sys.width * 3) ∧
    slice sys i =
      Finset.Ico (i * (sys.height * sys.width * 3))
        ((i + 1) * (sys.height * sys.width * 3)) ∧
    Disjoint (slice sys i) (slice sys j) ∧
    runi.dstWrites ⊆ slice sys i ∧
    runj.dstWrites ⊆ slice sys j ∧
    Disjoint runi.dstWrites runj.dstWrites := by
  have key : ∀ (k : Nat) (runk : WorkerRun),
      (camsys_runs sys envs)[k]? = some runk → runk.dstWrites ⊆ slice sys k := by
    intro k runk hk
    rw [camsys_runs_getElem] at hk
    rcases Option.map_eq_some'.mp hk with ⟨cam, hcamk, hrunk⟩
    obtain ⟨hwk, hhk⟩ := hdims cam (List.getElem?_mem hcamk)
    have hsz : cam.height * (cam.width * 3) = cam_dst_sz sys := by
      rw [hwk, hhk, cam_dst_sz]
      ring
    rw [← hrunk]
    have := worker_dstWrites_subset cam (slice_offset sys k) (envs k)
    rw [hsz] at this
    exact this
  refine ⟨?_, ?_, slice_disjoint sys hij, key i runi hi, key j runj hj,
    Disjoint.mono (key i runi hi) (key j runj hj) (slice_disjoint sys hij)⟩
  · unfold slice_offset cam_dst_sz
    ring
  · unfold slice slice_offset cam_dst_sz
    congr 1 <;> ring

/-- C1 witness: two matched 2×2 cameras; the two workers' destination writes are
disjoint. -/
theorem C1_disjoint_slices_witness :
    Disjoint
      (cam_read_worker ⟨2, 2, 0⟩ (slice_offset ⟨[⟨2, 2, 0⟩, ⟨2, 2, 0⟩], 2, 2⟩ 0)
        ⟨0, 0, 0, 0⟩).dstWrites
      (cam_read_worker ⟨2, 2, 0⟩ (slice_offset ⟨[⟨2, 2, 0⟩, ⟨2, 2, 0⟩], 2, 2⟩ 1)
        ⟨0, 0, 0, 0⟩).dstWrites :=
  (C1_disjoint_slices ⟨[⟨2, 2, 0⟩, ⟨2, 2, 0⟩], 2, 2⟩ (fun _ => ⟨0, 0, 0, 0⟩) 0 1
    (cam_read_worker ⟨2, 2, 0⟩ (slice_offset ⟨[⟨2, 2, 0⟩, ⟨2, 2, 0⟩], 2, 2⟩ 0)
      ⟨0, 0, 0, 0⟩)
    (cam_read_worker ⟨2, 2, 0⟩ (slice_offset ⟨[⟨2, 2, 0⟩, ⟨2, 2, 0⟩], 2, 2⟩ 1)
      ⟨0, 0, 0, 0⟩)
    (by decide) (by decide) (by decide) (by decide)).2.2.2.2.2


/-- C7: the batch orchestrator never surfaces an outcome before every spawned worker
has completed: every spawn in the call's trace has a matching join, and any raised
error or returned array occurs strictly after the join of every spawned worker — so
after any batch call no spawned thread remains running. -/
theorem C7_join_barrier (sys : CamSys) (envs : Nat → WorkerEnv) :
    (∀ i, Event.spawn i ∈ camsys_read_trace sys envs →
      Event.join i ∈ camsys_read_trace sys envs) ∧
    (∀ (p : Nat) (e : PyError),
      (camsys_read_trace sys envs)[p]? = some (Event.raiseErr e) →
      ∀ i, Event.spawn i ∈ camsys_read_trace sys envs →
        ∃ q, q < p ∧ (camsys_read_trace sys envs)[q]? = some (Event.join i)) ∧
    (∀ (p : Nat) (t : Tensor),
      (camsys_read_trace sys envs)[p]? = some (Event.returnArr t) →
      ∀ i, Event.spawn i ∈ camsys_read_trace sys envs →
        ∃ q, q < p ∧ (camsys_read_trace sys envs)[q]? = some (Event.join i)) := by
  by_cases hN : sys.cameras.length = 0
  · refine ⟨?_, ?_, ?_⟩
    · intro i hi
      unfold camsys_read_trace at hi
      rw [if_pos hN] at hi
      simp at hi
    · intro p e hp i hi
      unfold camsys_read_trace at hi
      rw [if_pos hN] at hi
      simp at hi
    · intro p t hp i hi
      unfold camsys_read_trace at hi
      rw [if_pos hN] at hi
      simp at hi
  · obtain ⟨fin, hfs, hfj, htr⟩ :
        ∃ fin : Event, (∀ k, fin ≠ Event.spawn k) ∧ (∀ k, fin ≠ Event.join k) ∧
          camsys_read_trace sys envs =
            ((List.range sys.cameras.length).map Event.spawn ++
              (List.range sys.cameras.length).map Event.join) ++ [fin] := by
      rcases hf : firstFailure (camsys_outcomes sys envs) with _ | p
      · refine ⟨Event.returnArr
          { dims := [sys.cameras.length, sys.height, sys.width, 3],
            dtype := .uint8, ownsData := true }, ?_, ?_, ?_⟩
        · intro k; simp
        · intro k; simp
        · unfold camsys_read_trace
          rw [if_neg hN, hf]
      · refine ⟨Event.raiseErr
          (.runtimeError ("Reading image from camera " ++ toString p.1 ++
            " failed: " ++ toString p.2 ++ "\n")), ?_, ?_, ?_⟩
        · intro k; simp
        · intro k; simp
        · unfold camsys_read_trace
          rw [if_neg hN, hf]
    have hlenA : ((List.range sys.cameras.length).map Event.spawn).length =
        sys.cameras.length := by simp
    have hlenB : ((List.range sys.cameras.length).map Event.join).length =
        sys.cameras.length := by simp
    have hlenAB : ((List.range sys.cameras.length).map Event.spawn ++
        (List.range sys.cameras.length).map Event.join).length =
        2 * sys.cameras.length := by
      rw [List.length_append, hlenA, hlenB]
      omega
    have hmem : ∀ i, Event.spawn i ∈ camsys_read_trace sys envs →
        i < sys.cameras.length := by
      intro i hi
      rw [htr] at hi
      rcases List.mem_append.mp hi with h12 | h4
      · rcases List.mem_append.mp h12 with h1 | h3
        · rcases List.mem_map.mp h1 with ⟨a, ha, hae⟩
          have ha2 : a < sys.cameras.length := List.mem_range.mp ha
          injection hae with h
          omega
        · rcases List.mem_map.mp h3 with ⟨a, _, hae⟩
          exact absurd hae (by simp)
      · exact absurd (List.mem_singleton.mp h4).symm (hfs i)
    have hjoin_at : ∀ i, i < sys.cameras.length →
        (camsys_read_trace sys envs)[sys.cameras.length + i]? =
          some (Event.join i) := by
      intro i hiN
      rw [htr, List.getElem?_append, if_pos (by rw [hlenAB]; omega)]
      rw [List.getElem?_append, if_neg (by rw [hlenA]; omega), hlenA]
      rw [show sys.cameras.length + i - sys.cameras.length = i from by omega]
      rw [List.getElem?_map, List.getElem?_range hiN]
      rfl
    have hterm : ∀ (p : Nat) (x : Event), (camsys_read_trace sys envs)[p]? = some x →
        (∀ k, x ≠ Event.spawn k) → (∀ k, x ≠ Event.join k) →
        2 * sys.cameras.length ≤ p := by
      intro p x hp hxs hxj
      by_contra hlt
      push_neg at hlt
      rcases Nat.lt_or_ge p sys.cameras.length with h1 | h1
      · have hval : (camsys_read_trace sys envs)[p]? = some (Event.spawn p) := by
          rw [htr, List.getElem?_append, if_pos (by rw [hlenAB]; omega)]
          rw [List.getElem?_append, if_pos (by rw [hlenA]; omega)]
          rw [List.getElem?_map, List.getElem?_range h1]
          rfl
        rw [hp] at hval
        exact hxs p (Option.some.inj hval)
      · have h2 : p - sys.cameras.length < sys.cameras.length := by omega
        have hval : (camsys_read_trace sys envs)[p]? =
            some (Event.join (p - sys.cameras.length)) := by
          rw [htr, List.getElem?_append, if_pos (by rw [hlenAB]; omega)]
          rw [List.getElem?_append, if_neg (by rw [hlenA]; omega), hlenA]
          rw [List.getElem?_map, List.getElem?_range h2]
          rfl
        rw [hp] at hval
        exact hxj _ (Option.some.inj hval)
    refine ⟨?_, ?_, ?_⟩
    · intro i hi
      have hiN := hmem i hi
      rw [htr]
      exact List.mem_append.mpr (Or.inl (List.mem_append.mpr (Or.inr
        (List.mem_map.mpr ⟨i, List.mem_range.mpr hiN, rfl⟩))))
    · intro p e hp i hi
      have hiN := hmem i hi
      have hpe := hterm p _ hp (by intro k; simp) (by intro k; simp)
      exact ⟨sys.cameras.length + i, by omega, hjoin_at i hiN⟩
    · intro p t hp i hi
      have hiN := hmem i hi
      have hpe := hterm p _ hp (by intro k; simp) (by intro k; simp)
      exact ⟨sys.cameras.length + i, by omega, hjoin_at i hiN⟩

/-- C7 witness: in a one-camera batch whose worker fails at dequeue, the spawned
worker's join is in the trace, and the raised error at position 2 is preceded by
that join. -/
theorem C7_join_barrier_witness :
    Event.join 0 ∈ camsys_read_trace ⟨[⟨2, 2, 0⟩], 2, 2⟩ (fun _ => ⟨-1, 0, 0, 0⟩) ∧
    (∃ q, q < 2 ∧
      (camsys_read_trace ⟨[⟨2, 2, 0⟩], 2, 2⟩ (fun _ => ⟨-1, 0, 0, 0⟩))[q]? =
        some (Event.join 0)) :=
  ⟨(C7_join_barrier ⟨[⟨2, 2, 0⟩], 2, 2⟩ (fun _ => ⟨-1, 0, 0, 0⟩)).1 0 (by decide),
   (C7_join_barrier ⟨[⟨2, 2, 0⟩], 2, 2⟩ (fun _ => ⟨-1, 0, 0, 0⟩)).2.1 2
     (.runtimeError "Reading image from camera 0 failed: 1\n") (by decide) 0
     (by decide)⟩

end Multicam
